import Mathlib

/-!
Verification development for the multi-device logcat web viewer
(`logcat-web.py`).  The Python source is shallowly embedded: the pure
log-line parser is modelled with a small backtracking matcher for the
three compiled regular expressions of the source, and the stateful
`DeviceManager` is modelled as explicit state passing over a registry
record.  External effects (the adb backend, the event loop, wall-clock
time, file contents) are passed in as explicit parameters.
-/

namespace Logcat

/-! ### Python string primitives -/

/-- Whitespace recognised by `str.strip` and by the regex class `\s`
(ASCII part: space, tab, newline, carriage return, vertical tab, form feed). -/
def pyIsSpace (c : Char) : Bool :=
  c = ' ' || c = '\t' || c = '\n' || c = '\r' || c = '\x0b' || c = '\x0c'

/-- `str.strip()` on a character list. -/
def pyStripList (s : List Char) : List Char :=
  ((s.dropWhile pyIsSpace).reverse.dropWhile pyIsSpace).reverse

/-- `str.strip()`. -/
def pyStrip (s : String) : String := String.mk (pyStripList s.data)

/-- `str.lower()` (ASCII case folding, which covers all strings this
program compares). -/
def pyLower (s : String) : String := String.mk (s.data.map Char.toLower)

/-- Does `needle` occur as a contiguous sublist of `hay`?  Models the
Python expression `needle in hay` on strings. -/
def containsSub (hay needle : List Char) : Bool :=
  if needle.isPrefixOf hay then true
  else
    match hay with
    | [] => false
    | _ :: t => containsSub t needle

/-- Python substring test `needle in hay`. -/
def pyContains (hay needle : String) : Bool := containsSub hay.data needle.data

/-- `str.split(sep)` for a single-character separator, Python semantics:
the result always has one more element than the number of separators. -/
def pySplitOn (sep : Char) : List Char → List (List Char)
  | [] => [[]]
  | c :: t =>
    let r := pySplitOn sep t
    if c = sep then [] :: r
    else
      match r with
      | h :: t' => (c :: h) :: t'
      | [] => [[c]]

/-- Digit run of a Python integer literal body: digits with single
underscores allowed between digits (the accumulator carries the value). -/
def digitsCore : List Char → Nat → Option Nat
  | [], acc => some acc
  | '_' :: c :: t, acc =>
    if c.isDigit then digitsCore t (acc * 10 + (c.toNat - 48)) else none
  | '_' :: [], _ => none
  | c :: t, acc =>
    if c.isDigit then digitsCore t (acc * 10 + (c.toNat - 48)) else none

/-- Unsigned part of `int(s)`: must start with a digit. -/
def pyIntCore (r : List Char) : Option Nat :=
  match r with
  | [] => none
  | c :: _ => if c.isDigit then digitsCore r 0 else none

/-- Python `int(s)` on a string: surrounding whitespace, an optional
sign, then decimal digits (underscores allowed between digits).
`none` models the `ValueError` that `int` raises otherwise. -/
def pyInt (s : String) : Option Int :=
  match pyStripList s.data with
  | '+' :: rest => (pyIntCore rest).map Int.ofNat
  | '-' :: rest => (pyIntCore rest).map (fun n => -(Int.ofNat n))
  | rest => (pyIntCore rest).map Int.ofNat

/-! ### A small backtracking regex matcher

The three compiled patterns of the source (`LOG_PATTERN`,
`UNITY_TAG_PATTERN`, `COLOR_TAG_PATTERN`) and the two inline patterns
only ever quantify single character classes, so the matcher below
supports exactly that shape with Python's leftmost-greedy backtracking
semantics.  Capture groups are never nested in the source patterns and
are recorded as marker positions. -/

/-- Character classes occurring in the source's patterns. -/
inductive CClass where
  | digit
  | space
  | nonspace
  | notNl
  | lit (c : Char)
  | notChar (c : Char)
  | oneOf (cs : List Char)
deriving DecidableEq, Repr

/-- Does a character match a class? -/
def cmatch : CClass → Char → Bool
  | .digit, c => c.isDigit
  | .space, c => pyIsSpace c
  | .nonspace, c => !(pyIsSpace c)
  | .notNl, c => c ≠ '\n'
  | .lit a, c => c = a
  | .notChar a, c => c ≠ a
  | .oneOf cs, c => cs.contains c

/-- Regex items: a single class, a counted repetition, greedy plus,
greedy star, greedy option, group markers, and the end anchor. -/
inductive RItem where
  | one (c : CClass)
  | rep (c : CClass) (n : Nat)
  | plus (c : CClass)
  | star (c : CClass)
  | opt (c : CClass)
  | openG
  | closeG
  | eos
deriving DecidableEq, Repr

/-- Length of the maximal prefix run of characters matching a class. -/
def runLen (c : CClass) : List Char → Nat
  | [] => 0
  | ch :: t => if cmatch c ch then runLen c t + 1 else 0

/-- Backtracking matcher.  `reMatch items s p` matches `items` against a
prefix of `s`, where `p` is the absolute offset of `s` in the subject;
on success it returns the group-marker offsets in order of occurrence
and the offset of the match end.  Greedy quantifiers try the longest
repetition first and backtrack on failure of the continuation, which is
exactly Python's behaviour for quantified character classes. -/
def reMatch : List RItem → List Char → Nat → Option (List Nat × Nat)
  | [], _, p => some ([], p)
  | .one c :: rest, s, p =>
    match s with
    | [] => none
    | ch :: t => if cmatch c ch then reMatch rest t (p + 1) else none
  | .rep c n :: rest, s, p =>
    if n ≤ runLen c s then reMatch rest (s.drop n) (p + n) else none
  | .plus c :: rest, s, p =>
    let m := runLen c s
    if m = 0 then none
    else (List.range m).findSome? (fun j => reMatch rest (s.drop (m - j)) (p + (m - j)))
  | .star c :: rest, s, p =>
    let m := runLen c s
    (List.range (m + 1)).findSome? (fun j => reMatch rest (s.drop (m - j)) (p + (m - j)))
  | .opt c :: rest, s, p =>
    match s with
    | [] => reMatch rest [] p
    | ch :: t =>
      if cmatch c ch then
        match reMatch rest t (p + 1) with
        | some r => some r
        | none => reMatch rest s p
      else reMatch rest s p
  | .openG :: rest, s, p =>
    (reMatch rest s p).map (fun r => (p :: r.1, r.2))
  | .closeG :: rest, s, p =>
    (reMatch rest s p).map (fun r => (p :: r.1, r.2))
  | .eos :: rest, s, p =>
    if s = [] ∨ s = ['\n'] then reMatch rest s p else none

/-- Pair up the marker positions: markers come out as
open, close, open, close, ... because groups are never nested. -/
def pairUp : List Nat → List (Nat × Nat)
  | o :: c :: rest => (o, c) :: pairUp rest
  | _ => []

/-- Match at the start of `s` (Python `re.match`), returning the list of
captured-group character lists and the match end offset. -/
def reMatchGroups (items : List RItem) (s : List Char) :
    Option (List (List Char) × Nat) :=
  (reMatch items s 0).map
    (fun r => ((pairUp r.1).map (fun oc => (s.drop oc.1).take (oc.2 - oc.1)), r.2))

/-- Leftmost match anywhere in `s` (Python `re.search`), returning the
captured groups of the first match. -/
def reSearch (items : List RItem) : List Char → Option (List (List Char))
  | [] => (reMatchGroups items []).map (fun r => r.1)
  | c :: t =>
    match reMatchGroups items (c :: t) with
    | some r => some r.1
    | none => reSearch items t

/-- Python `pattern.sub(r'\2', s)`: replace every non-overlapping match
by its second capture group and keep everything else.  The source only
uses this with `COLOR_TAG_PATTERN`, which cannot match the empty string,
so a zero-width match (impossible here) conservatively keeps the
character. -/
def reSub2F (items : List RItem) : Nat → List Char → List Char
  | 0, s => s
  | _ + 1, [] => []
  | fuel + 1, c :: t =>
    match reMatchGroups items (c :: t) with
    | some r =>
      if r.2 = 0 then c :: reSub2F items fuel t
      else (r.1.getD 1 []) ++ reSub2F items fuel ((c :: t).drop r.2)
    | none => c :: reSub2F items fuel t

/-- Entry point for substitution: every replaced match consumes at
least one character, so the input length bounds the recursion. -/
def reSub2 (items : List RItem) (s : List Char) : List Char :=
  reSub2F items s.length s

/-- Literal character sequence as regex items. -/
def lits (s : String) : List RItem := s.data.map (fun c => RItem.one (CClass.lit c))

/-- The source's `LOG_PATTERN`:
`^(\d{2}-\d{2}\s+\d{2}:\d{2}:\d{2}\.\d{3})\s+(\d+)\s+(\d+)\s+([VDIWEF])\s+(\S+)\s*:\s*(.*)$`. -/
def LOG_PATTERN : List RItem :=
  [RItem.openG,
   .rep .digit 2, .one (.lit '-'), .rep .digit 2, .plus .space,
   .rep .digit 2, .one (.lit ':'), .rep .digit 2, .one (.lit ':'), .rep .digit 2,
   .one (.lit '.'), .rep .digit 3,
   .closeG, .plus .space,
   .openG, .plus .digit, .closeG, .plus .space,
   .openG, .plus .digit, .closeG, .plus .space,
   .openG, .one (.oneOf ['V', 'D', 'I', 'W', 'E', 'F']), .closeG, .plus .space,
   .openG, .plus .nonspace, .closeG, .star .space, .one (.lit ':'), .star .space,
   .openG, .star .notNl, .closeG, .eos]

/-- The source's `UNITY_TAG_PATTERN`: `\[([^\]]+)\]`. -/
def UNITY_TAG_PATTERN : List RItem :=
  [RItem.one (.lit '['), .openG, .plus (.notChar ']'), .closeG, .one (.lit ']')]

/-- The source's `COLOR_TAG_PATTERN`: `<color=([^>]+)>([^<]*)</color>`. -/
def COLOR_TAG_PATTERN : List RItem :=
  lits "<color=" ++
  [RItem.openG, .plus (.notChar '>'), .closeG, .one (.lit '>'),
   .openG, .star (.notChar '<'), .closeG] ++
  lits "</color>"

/-- The duration pattern the CODE tests bracket labels against
(line 481 of the source): `\d+hs?\s+\d+m`.  Note the mandatory `h`
with an optional `s` after it. -/
def DURATION_PATTERN : List RItem :=
  [RItem.plus .digit, .one (.lit 'h'), .opt (.lit 's'),
   .plus .space, .plus .digit, .one (.lit 'm')]

/-- The duration pattern as the SPEC writes it: `\d+h?\s+\d+m`
(optional `h`).  Declared only to compare the spec's wording with the
source's `DURATION_PATTERN`; the parser below never uses it. -/
def DURATION_PATTERN_SPEC : List RItem :=
  [RItem.plus .digit, .opt (.lit 'h'), .plus .space, .plus .digit, .one (.lit 'm')]

/-! ### The log line parser -/

/-- A parsed log record, mirroring the dict returned by
`parse_log_line`. -/
structure LogRecord where
  timestamp : String
  level : String
  tag : String
  message : String
  category : Option String
  raw : String
deriving DecidableEq, Repr

/-- Category detection of `parse_log_line` (lines 484-498): a
case-insensitive first-match chain over the lowered message. -/
def detect_category (message : String) : Option String :=
  let m := pyLower message
  if pyContains m "quantum" then some "quantum"
  else if pyContains m "vivox" then some "vivox"
  else if pyContains m "connection" || pyContains m "network" || pyContains m "http" then
    some "network"
  else if pyContains m "analytics" || pyContains m "firebase" then some "analytics"
  else if pyContains m "camera" || pyContains m "follower" then some "camera"
  else if pyContains m "player" || pyContains m "roy" then some "player"
  else none

/-- Bracket-tag extraction of `parse_log_line` (lines 476-482): the
first `[label]` token of the message, unless the label starts with the
code's duration pattern (`re.match` is a prefix match). -/
def extract_unity_tag (message : String) : Option String :=
  match reSearch UNITY_TAG_PATTERN message.data with
  | some gs =>
    let potential := String.mk (gs.getD 0 [])
    if (reMatch DURATION_PATTERN potential.data 0).isSome then none
    else some potential
  | none => none

/-- `parse_log_line` (lines 464-510): strip, reject empty lines, match
the structural pattern, derive tag and category, strip colour markup. -/
def parse_log_line (line : String) : Option LogRecord :=
  let line := pyStrip line
  if line = "" then none
  else
    match reMatchGroups LOG_PATTERN line.data with
    | none => none
    | some (gs, _) =>
      let timestamp := String.mk (gs.getD 0 [])
      let level := String.mk (gs.getD 3 [])
      let tag := String.mk (gs.getD 4 [])
      let message := String.mk (gs.getD 5 [])
      let unity_tag := extract_unity_tag message
      let category := detect_category message
      let clean_message := String.mk (reSub2 COLOR_TAG_PATTERN message.data)
      some { timestamp := timestamp, level := level,
             tag := unity_tag.getD tag,
             message := clean_message,
             category := category, raw := line }

/-! ### The device registry (`DeviceManager`)

Python dicts are modelled as insertion-ordered association lists with
unique keys.  The adb subprocess calls, the event loop and wall-clock
time are external; where an operation consults them the model takes
their outcome as an explicit parameter.  Broadcasts are returned as an
event list instead of being sent to websocket clients. -/

/-- The source's `DEVICE_COLORS` palette. -/
def DEVICE_COLORS : List String :=
  ["#3b82f6", "#10b981", "#f59e0b", "#ef4444",
   "#8b5cf6", "#ec4899", "#06b6d4", "#84cc16"]

/-- Initial per-device statistics dict. -/
def defaultStats : List (String × Nat) :=
  [("E", 0), ("W", 0), ("I", 0), ("D", 0), ("V", 0), ("total", 0)]

/-- Mirror of the `DeviceInfo` dataclass. -/
structure DeviceInfo where
  id : String
  ip : String
  port : Int
  name : String
  nickname : String
  status : String
  connection_type : String
  color : String
  stats : List (String × Nat)
  last_seen : Option String
deriving DecidableEq, Repr

/-- Association-list lookup (Python `dict[k]` / `k in dict`). -/
def alookup (id : String) : List (String × DeviceInfo) → Option DeviceInfo
  | [] => none
  | (k, v) :: t => if k = id then some v else alookup id t

/-- Association-list update: replace the value of an existing key,
append at the end otherwise (Python dict assignment order). -/
def aset (id : String) (v : DeviceInfo) : List (String × DeviceInfo) → List (String × DeviceInfo)
  | [] => [(id, v)]
  | (k, w) :: t => if k = id then (k, v) :: t else (k, w) :: aset id v t

/-- Association-list deletion of a key (Python `del dict[k]`). -/
def aremove (id : String) : List (String × DeviceInfo) → List (String × DeviceInfo)
  | [] => []
  | (k, w) :: t => if k = id then t else (k, w) :: aremove id t

/-- Increment a counter dict entry, creating it at the end when absent
(Python `d[k] = d.get(k, 0) + 1`). -/
def aincr (k : String) : List (String × Nat) → List (String × Nat)
  | [] => [(k, 1)]
  | (k', v) :: t => if k' = k then (k', v + 1) :: t else (k', v) :: aincr k t

/-- Exceptions the modelled Python code can raise. -/
inductive PyErr where
  | valueError
  | keyError
  | attributeError
  | typeError
deriving DecidableEq, Repr

/-- Events the manager broadcasts to observers (websocket messages). -/
inductive MEvent where
  | device_added (d : DeviceInfo)
  | device_update (d : DeviceInfo)
  | device_removed (id : String)
  | log (r : LogRecord) (device_id device_name device_color : String)
deriving DecidableEq, Repr

/-- The mutable state of `DeviceManager`: the device dict, the set of
device ids owning a logcat task, the set owning a live subprocess, and
the palette cursor. -/
structure DMState where
  devices : List (String × DeviceInfo)
  tasks : List String
  processes : List String
  color_index : Nat
deriving DecidableEq, Repr

/-- The empty registry a fresh `DeviceManager()` starts with. -/
def dmInit : DMState := { devices := [], tasks := [], processes := [], color_index := 0 }

/-- `get_next_color` (lines 137-140): palette colour at the cursor,
cursor advanced. -/
def get_next_color (s : DMState) : String × DMState :=
  (DEVICE_COLORS.getD (s.color_index % DEVICE_COLORS.length) "",
   { s with color_index := s.color_index + 1 })

/-- The ip parsed from a device id
(`device_id.split(":")[0] if ":" in device_id else device_id`). -/
def mkDeviceIp (device_id : String) : String :=
  if device_id.data.contains ':' then
    String.mk ((pySplitOn ':' device_id.data).getD 0 [])
  else device_id

/-- The port parsed from a device id
(`int(device_id.split(":")[1]) if ":" in device_id else 5555`);
`none` is the `ValueError` of `int`. -/
def mkDevicePort (device_id : String) : Option Int :=
  if device_id.data.contains ':' then
    pyInt (String.mk ((pySplitOn ':' device_id.data).getD 1 []))
  else some 5555

/-- The `DeviceInfo(...)` constructed by `add_device`. -/
def newDevice (device_id name connection_type : String) (port : Int)
    (color : String) : DeviceInfo :=
  { id := device_id, ip := mkDeviceIp device_id, port := port,
    name := if name = "" then "Device (" ++ mkDeviceIp device_id ++ ")" else name,
    nickname := "", status := "offline",
    connection_type := connection_type, color := color,
    stats := defaultStats, last_seen := none }

/-- `add_device` (lines 152-173).  Returns the updated state, the
device returned to the caller, and the broadcast events; `Except`
models the uncaught `ValueError` of `int(device_id.split(":")[1])`,
which in Python propagates before any state is mutated. -/
def add_device (s : DMState) (device_id name connection_type : String) :
    Except PyErr (DMState × DeviceInfo × List MEvent) :=
  match alookup device_id s.devices with
  | some d => .ok (s, d, [])
  | none =>
    match mkDevicePort device_id with
    | none => .error .valueError
    | some port =>
      .ok ({ (get_next_color s).2 with
               devices := (get_next_color s).2.devices ++
                 [(device_id,
                   newDevice device_id name connection_type port (get_next_color s).1)] },
           newDevice device_id name connection_type port (get_next_color s).1,
           [MEvent.device_added
             (newDevice device_id name connection_type port (get_next_color s).1)])

/-- Outcomes of the external adb calls that `connect_device` awaits. -/
structure ConnectEnv where
  adb_connect_ok : Bool
  device_name : String
  now : String
deriving DecidableEq, Repr

/-- `connect_device` (lines 182-226).  The boolean result is the
Python return value.  `env` carries the adb connect outcome (whether
the output contained "connected"/"already"), the resolved device name
(`get_device_name` already catches its own failures) and the current
time. -/
def connect_device (s : DMState) (env : ConnectEnv) (device_id : String) :
    DMState × List MEvent × Bool :=
  match alookup device_id s.devices with
  | none => (s, [], false)
  | some d =>
    let d1 := { d with status := "connecting" }
    let s1 := { s with devices := aset device_id d1 s.devices }
    if d1.connection_type = "wifi" && !env.adb_connect_ok then
      let d2 := { d1 with status := "offline" }
      let s2 := { s1 with devices := aset device_id d2 s1.devices }
      (s2, [MEvent.device_update d1, MEvent.device_update d2], false)
    else
      let d2 := { d1 with name := env.device_name, status := "online",
                          last_seen := some env.now }
      let s2 := { s1 with devices := aset device_id d2 s1.devices }
      let s3 := { s2 with
        tasks := if s2.tasks.contains device_id then s2.tasks
                 else s2.tasks ++ [device_id] }
      (s3, [MEvent.device_update d1, MEvent.device_update d2], true)

/-- `disconnect_device` (lines 228-247): cancel and await the logcat
task, terminate the subprocess, then mark the device offline. -/
def disconnect_device (s : DMState) (device_id : String) : DMState × List MEvent :=
  let s1 := { s with tasks := s.tasks.erase device_id }
  let s2 := { s1 with processes := s1.processes.erase device_id }
  match alookup device_id s2.devices with
  | some d =>
    let d' := { d with status := "offline" }
    ({ s2 with devices := aset device_id d' s2.devices },
     [MEvent.device_update d'])
  | none => (s2, [])

/-- `remove_device` (lines 175-180): disconnect first, then delete. -/
def remove_device (s : DMState) (device_id : String) : DMState × List MEvent :=
  match alookup device_id s.devices with
  | some _ =>
    let r := disconnect_device s device_id
    ({ r.1 with devices := aremove device_id r.1.devices },
     r.2 ++ [MEvent.device_removed device_id])
  | none => (s, [])

/-- The `set_nickname` branch of `websocket_handler` (lines 559-567). -/
def set_nickname (s : DMState) (device_id nickname : String) : DMState × List MEvent :=
  match alookup device_id s.devices with
  | some d =>
    let d' := { d with nickname := nickname }
    ({ s with devices := aset device_id d' s.devices },
     [MEvent.device_update d'])
  | none => (s, [])

/-- The `clear_stats` branch of `websocket_handler` (lines 582-591). -/
def clear_stats (s : DMState) (device_id : String) : DMState × List MEvent :=
  match alookup device_id s.devices with
  | some d =>
    let d' := { d with stats := defaultStats }
    ({ s with devices := aset device_id d' s.devices },
     [MEvent.device_update d'])
  | none => (s, [])

/-! ### Config loading (`load_config`, lines 432-445)

The file system and `json.loads` are external: the input below is
`none` when `CONFIG_FILE.exists()` is false, `some none` when the file
exists but `json.loads` raises (invalid JSON), and `some (some v)` when
it parses to the Python value `v`.  The single `try/except: pass`
around the parse-and-load body catches every exception, keeping
whatever devices were added before it struck. -/

/-- Python values a JSON document can decode to. -/
inductive PyVal where
  | vstr (s : String)
  | vint (n : Int)
  | vbool (b : Bool)
  | vnone
  | vlist (xs : List PyVal)
  | vdict (kvs : List (String × PyVal))

/-- Dict lookup (`d.get(k)` / `d[k]`). -/
def dictGet (kvs : List (String × PyVal)) (k : String) : Option PyVal :=
  match kvs with
  | [] => none
  | (k', v) :: t => if k' = k then some v else dictGet t k

/-- `config.get('devices', [])`: only dicts have `.get`; every other
value raises `AttributeError`. -/
def configDevices (v : PyVal) : Except PyErr PyVal :=
  match v with
  | .vdict kvs => .ok ((dictGet kvs "devices").getD (.vlist []))
  | _ => .error .attributeError

/-- Direct nickname assignment `self.devices[id].nickname = nk`
performed by the load loop. -/
def setNickRaw (s : DMState) (id nk : String) : DMState :=
  match alookup id s.devices with
  | some d => { s with devices := aset id { d with nickname := nk } s.devices }
  | none => s

/-- One iteration of the load loop: `add_device(d['id'],
connection_type=d.get('connection_type', 'wifi'))` followed by the
nickname assignment when `d.get('nickname')` is truthy.  Subscripting a
non-dict raises `TypeError`; a dict without `'id'` raises `KeyError`; a
non-string id reaches `device_id.split` and raises `AttributeError`.
Files written by `save_config` only ever hold string fields, so the
string cases are the ones the code exercises. -/
def loadEntry (s : DMState) (d : PyVal) : Except PyErr DMState :=
  match d with
  | .vdict kvs =>
    match dictGet kvs "id" with
    | none => .error .keyError
    | some (.vstr id) =>
      let ct := match dictGet kvs "connection_type" with
                | some (.vstr c) => c
                | _ => "wifi"
      match add_device s id "" ct with
      | .error e => .error e
      | .ok (s1, _, _) =>
        match dictGet kvs "nickname" with
        | some (.vstr nk) => .ok (if nk = "" then s1 else setNickRaw s1 id nk)
        | _ => .ok s1
    | some _ => .error .attributeError
  | _ => .error .typeError

/-- The `for d in config.get('devices', [])` loop under the blanket
`except: pass`: an exception abandons the rest of the list but keeps
the devices already registered. -/
def loadLoop (s : DMState) : List PyVal → DMState
  | [] => s
  | d :: rest =>
    match loadEntry s d with
    | .ok s' => loadLoop s' rest
    | .error _ => s

/-- `load_config` as a total function of the file contents.  A
`'devices'` value that is not a list is collapsed to "no change": in
Python iterating a string or dict yields elements whose subscripting
raises before any device is added, and iterating any other value raises
`TypeError` immediately, all caught by the same `except`. -/
def load_config (file : Option (Option PyVal)) (s : DMState) : DMState :=
  match file with
  | none => s
  | some none => s
  | some (some v) =>
    match configDevices v with
    | .error _ => s
    | .ok dv =>
      match dv with
      | .vlist entries => loadLoop s entries
      | _ => s

/-! ### The streaming loop (`run_logcat`, lines 263-310)

The loop is driven by an external schedule: each iteration opens the
logcat subprocess, delivers some decoded lines, and then ends by
end-of-input (`readline` returned empty), by an exception, or by
cancellation from `disconnect_device`.  The trace records the externally
visible actions in order. -/

/-- How one iteration of the outer `while True` ends. -/
inductive IterEnd where
  | eof
  | exn
  | cancelled
deriving DecidableEq, Repr

/-- External input to one iteration: the decoded lines read before the
stream ends, and the way it ends. -/
structure IterInput where
  lines : List String
  ending : IterEnd
deriving Repr

/-- Observable actions of the streaming loop. -/
inductive TraceEv where
  | openStream
  | emitLog (r : LogRecord) (device_id device_name device_color : String)
  | statusUpdate (st : String)
  | sleep (secs : Nat)
  | exitLoop
deriving DecidableEq, Repr

/-- Per-line body of the inner read loop: parse, stamp device
metadata, bump stats, record `last_seen`, broadcast. -/
def logcatLine (dev : DeviceInfo) (now : String) (line : String) :
    DeviceInfo × List TraceEv :=
  match parse_log_line line with
  | some r =>
    ({ dev with stats := aincr "total" (aincr r.level dev.stats),
                last_seen := some now },
     [TraceEv.emitLog r dev.id (if dev.nickname = "" then dev.name else dev.nickname)
        dev.color])
  | none => (dev, [])

/-- One iteration of the outer loop.  On end-of-input the device goes
to `connecting` and the loop sleeps 2 seconds before retrying; on an
exception it goes to `offline` and also sleeps 2 seconds before
retrying; on cancellation the loop breaks.  The boolean is true when
the loop continues. -/
def runIter (dev : DeviceInfo) (now : String) (inp : IterInput) :
    DeviceInfo × List TraceEv × Bool :=
  let body := inp.lines.foldl
    (fun acc line =>
      let r := logcatLine acc.1 now line
      (r.1, acc.2 ++ r.2))
    (dev, ([] : List TraceEv))
  match inp.ending with
  | .eof =>
    ({ body.1 with status := "connecting" },
     TraceEv.openStream :: body.2 ++ [TraceEv.statusUpdate "connecting", TraceEv.sleep 2],
     true)
  | .exn =>
    ({ body.1 with status := "offline" },
     TraceEv.openStream :: body.2 ++ [TraceEv.statusUpdate "offline", TraceEv.sleep 2],
     true)
  | .cancelled =>
    (body.1, TraceEv.openStream :: body.2 ++ [TraceEv.exitLoop], false)

/-- The `while True` loop over a finite schedule prefix.  The final
boolean is true when the loop has terminated within the prefix (which
only a cancelled iteration causes) and false while it is still
running. -/
def run_logcat (dev : DeviceInfo) (now : String) :
    List IterInput → DeviceInfo × List TraceEv × Bool
  | [] => (dev, [], false)
  | inp :: rest =>
    if (runIter dev now inp).2.2 then
      ((run_logcat (runIter dev now inp).1 now rest).1,
       (runIter dev now inp).2.1 ++ (run_logcat (runIter dev now inp).1 now rest).2.1,
       (run_logcat (runIter dev now inp).1 now rest).2.2)
    else ((runIter dev now inp).1, (runIter dev now inp).2.1, true)

/-! ### Claim theorems -/

/-- The spec's worked example line. -/
def exLine1 : String :=
  "01-15 10:23:45.123  1234  5678 I Unity   : [Quantum] Match started <color=#ff0000>RED</color> team"

/-- C1 counterexample: the claim says the example line parses to a
record whose message is "Match started RED team", but the code never
removes the bracketed tag token from the message (only colour markup is
stripped), so the message is "[Quantum] Match started RED team". -/
theorem c1_counterexample :
    Option.map LogRecord.message (parse_log_line exLine1) ≠
      some "Match started RED team" ∧
    Option.map LogRecord.message (parse_log_line exLine1) =
      some "[Quantum] Match started RED team" := by
  constructor
  · decide
  · rfl

/-- C1 amended: the example line parses to timestamp
"01-15 10:23:45.123", level "I", tag "Quantum", message
"[Quantum] Match started RED team" (the bracketed token stays in the
message; only the colour markup is stripped), and category "quantum". -/
theorem c1_parse_example_amended :
    parse_log_line exLine1 = some
      { timestamp := "01-15 10:23:45.123", level := "I", tag := "Quantum",
        message := "[Quantum] Match started RED team",
        category := some "quantum", raw := exLine1 } := rfl

/-- C5: a line that is empty or whitespace-only after stripping, or
whose stripped form does not match the structural pattern, produces no
record; the parser is a total function, so no error can be raised. -/
theorem c5_parse_rejects_nonmatching (line : String)
    (h : pyStrip line = "" ∨ reMatchGroups LOG_PATTERN (pyStrip line).data = none) :
    parse_log_line line = none := by
  unfold parse_log_line
  rcases h with h | h
  · simp [h]
  · by_cases he : pyStrip line = ""
    · simp [he]
    · simp [he, h]

/-- C5 witness: the spec's garbage example and a whitespace-only line
both yield no record. -/
theorem c5_parse_rejects_nonmatching_witness :
    parse_log_line "garbage not a log line" = none ∧
    parse_log_line "   " = none :=
  ⟨c5_parse_rejects_nonmatching _ (Or.inr rfl),
   c5_parse_rejects_nonmatching _ (Or.inl rfl)⟩

/-- C10: adding a new device whose id has a colon but whose port
segment is not a valid Python integer literal raises the uncaught
`ValueError` of `int()`; the error propagates before any state is
created, so the registry is untouched. -/
theorem c10_add_device_bad_port (s : DMState) (id name ct : String)
    (h1 : alookup id s.devices = none)
    (h2 : id.data.contains ':' = true)
    (h3 : pyInt (String.mk ((pySplitOn ':' id.data).getD 1 [])) = none) :
    add_device s id name ct = Except.error PyErr.valueError := by
  have hmk : mkDevicePort id = none := by
    unfold mkDevicePort
    rw [if_pos h2, h3]
  unfold add_device
  rw [h1, hmk]

/-- C10 witness: adding "10.0.0.5:abc" to the fresh registry raises. -/
theorem c10_add_device_bad_port_witness :
    add_device dmInit "10.0.0.5:abc" "" "wifi" = Except.error PyErr.valueError :=
  c10_add_device_bad_port dmInit "10.0.0.5:abc" "" "wifi" rfl rfl rfl

/-- C7: every command that references a device id absent from the
registry is a no-op: the state is returned unchanged, no event is
broadcast, and no exception is raised ('connect' additionally returns
false).  The task and process hypotheses state the code's invariant
that only registered devices own a logcat task or subprocess. -/
theorem c7_missing_device_noop (s : DMState) (env : ConnectEnv) (id nk : String)
    (h1 : alookup id s.devices = none)
    (h2 : id ∉ s.tasks) (h3 : id ∉ s.processes) :
    connect_device s env id = (s, [], false) ∧
    disconnect_device s id = (s, []) ∧
    remove_device s id = (s, []) ∧
    set_nickname s id nk = (s, []) ∧
    clear_stats s id = (s, []) := by
  refine ⟨?_, ?_, ?_, ?_, ?_⟩
  · unfold connect_device
    simp [h1]
  · unfold disconnect_device
    simp [List.erase_of_not_mem h2, List.erase_of_not_mem h3, h1]
  · unfold remove_device
    simp [h1]
  · unfold set_nickname
    simp [h1]
  · unfold clear_stats
    simp [h1]

/-- C7 witness: the five commands on an unknown id over the fresh
registry all leave it unchanged and broadcast nothing. -/
theorem c7_missing_device_noop_witness :
    connect_device dmInit { adb_connect_ok := true, device_name := "Quest", now := "t0" }
      "192.168.1.42:5555" = (dmInit, [], false) ∧
    disconnect_device dmInit "192.168.1.42:5555" = (dmInit, []) ∧
    remove_device dmInit "192.168.1.42:5555" = (dmInit, []) ∧
    set_nickname dmInit "192.168.1.42:5555" "Left Headset" = (dmInit, []) ∧
    clear_stats dmInit "192.168.1.42:5555" = (dmInit, []) :=
  c7_missing_device_noop dmInit
    { adb_connect_ok := true, device_name := "Quest", now := "t0" }
    "192.168.1.42:5555" "Left Headset" rfl (by decide) (by decide)

/-- C8: loading the persisted device file never raises (the model is a
total function because the source wraps the whole body in a blanket
`except: pass`), and a missing file, unparseable JSON, a top-level
value that is not a JSON object, a `'devices'` entry that is not a
list, and a device list whose first entry is malformed all leave the
registry unchanged, so startup from the empty registry stays empty. -/
theorem c8_load_config_degrades (s : DMState) :
    load_config none s = s ∧
    load_config (some none) s = s ∧
    (∀ v : PyVal, (∀ kvs, v ≠ PyVal.vdict kvs) → load_config (some (some v)) s = s) ∧
    (∀ kvs, (∀ l, dictGet kvs "devices" ≠ some (PyVal.vlist l)) →
       load_config (some (some (PyVal.vdict kvs))) s = s) ∧
    (∀ kvs l entry rest err,
       dictGet kvs "devices" = some (PyVal.vlist l) → l = entry :: rest →
       loadEntry s entry = Except.error err →
       load_config (some (some (PyVal.vdict kvs))) s = s) := by
  refine ⟨rfl, rfl, ?_, ?_, ?_⟩
  · intro v hv
    cases v with
    | vdict kvs => exact absurd rfl (hv kvs)
    | vstr a => rfl
    | vint a => rfl
    | vbool a => rfl
    | vnone => rfl
    | vlist a => rfl
  · intro kvs hv
    unfold load_config configDevices
    cases hd : dictGet kvs "devices" with
    | none => simp [hd, loadLoop]
    | some v' =>
      cases v' with
      | vlist l => exact absurd hd (hv l)
      | vstr a => simp [hd]
      | vint a => simp [hd]
      | vbool a => simp [hd]
      | vnone => simp [hd]
      | vdict a => simp [hd]
  · intro kvs l entry rest err hd hl he
    subst hl
    unfold load_config configDevices
    simp [hd, loadLoop, he]

/-- C8 witness: a missing file, invalid JSON, a top-level JSON array,
an object whose devices field is a string, and a device list whose
first entry lacks an id all leave the fresh registry empty. -/
theorem c8_load_config_degrades_witness :
    load_config none dmInit = dmInit ∧
    load_config (some none) dmInit = dmInit ∧
    load_config (some (some (PyVal.vlist []))) dmInit = dmInit ∧
    load_config (some (some (PyVal.vdict [("devices", PyVal.vstr "oops")]))) dmInit = dmInit ∧
    load_config (some (some (PyVal.vdict [("devices", PyVal.vlist [PyVal.vdict []])]))) dmInit
      = dmInit :=
  ⟨(c8_load_config_degrades dmInit).1,
   (c8_load_config_degrades dmInit).2.1,
   (c8_load_config_degrades dmInit).2.2.1 _ (fun kvs h => by cases h),
   (c8_load_config_degrades dmInit).2.2.2.1 _ (fun el h => by cases h),
   (c8_load_config_degrades dmInit).2.2.2.2 _ _ (PyVal.vdict []) [] PyErr.keyError
     rfl rfl rfl⟩

/-- Looking up a key just appended to a dict in which it was absent
finds the appended value. -/
theorem alookup_append_self (xs : List (String × DeviceInfo)) (id : String)
    (v : DeviceInfo) (h : alookup id xs = none) :
    alookup id (xs ++ [(id, v)]) = some v := by
  induction xs with
  | nil => simp [alookup]
  | cons hd tl ih =>
    obtain ⟨k, w⟩ := hd
    simp only [alookup] at h
    simp only [List.cons_append, alookup]
    by_cases hk : k = id
    · rw [if_pos hk] at h
      cases h
    · rw [if_neg hk] at h ⊢
      exact ih h

/-- C4: `add_device` is idempotent.  Whenever a call succeeds, calling
it again with the same id returns the very same device and state with
no broadcast; on first creation the palette cursor advances by exactly
one and the device receives the palette colour at the old cursor (so
the k-th distinct device gets the k-th colour round-robin); re-adding
an existing id changes nothing and assigns no colour. -/
theorem c4_add_device_idempotent (s : DMState) (id n ct n2 ct2 : String)
    (s1 : DMState) (d : DeviceInfo) (evs : List MEvent)
    (h : add_device s id n ct = Except.ok (s1, d, evs)) :
    add_device s1 id n2 ct2 = Except.ok (s1, d, []) ∧
    (alookup id s.devices = none →
       s1.color_index = s.color_index + 1 ∧
       d.color = DEVICE_COLORS.getD (s.color_index % DEVICE_COLORS.length) "") ∧
    (∀ d0, alookup id s.devices = some d0 → s1 = s ∧ d = d0 ∧ evs = []) := by
  unfold add_device at h
  cases halook : alookup id s.devices with
  | some d0 =>
    simp only [halook, Except.ok.injEq, Prod.mk.injEq] at h
    obtain ⟨hs, hd, hevs⟩ := h
    subst hs; subst hd; subst hevs
    refine ⟨?_, ?_, ?_⟩
    · unfold add_device
      rw [halook]
    · intro hnone
      exact Option.noConfusion hnone
    · intro d1 hsome
      injection hsome with h1
      subst h1
      exact ⟨rfl, rfl, rfl⟩
  | none =>
    simp only [halook] at h
    rcases hport : mkDevicePort id with _ | port
    · rw [hport] at h
      simp at h
    · rw [hport] at h
      simp only [Except.ok.injEq, Prod.mk.injEq] at h
      obtain ⟨hs, hd, hevs⟩ := h
      subst hs; subst hd; subst hevs
      refine ⟨?_, ?_, ?_⟩
      · have hfound : alookup id
            ((get_next_color s).2.devices ++
              [(id, newDevice id n ct port (get_next_color s).1)]) =
            some (newDevice id n ct port (get_next_color s).1) := by
          have hsd : (get_next_color s).2.devices = s.devices := rfl
          rw [hsd]
          exact alookup_append_self _ _ _ halook
        unfold add_device
        rw [hfound]
      · intro _
        exact ⟨rfl, rfl⟩
      · intro d1 hsome
        exact Option.noConfusion hsome

/-- C4 witness: adding "192.168.1.42:5555" twice to the fresh registry
yields one device with the first palette colour, an advanced cursor,
and an unchanged second call. -/
theorem c4_add_device_idempotent_witness :
    add_device
      { devices :=
          [("192.168.1.42:5555",
            { id := "192.168.1.42:5555", ip := "192.168.1.42", port := 5555,
              name := "Device (192.168.1.42)", nickname := "", status := "offline",
              connection_type := "wifi", color := "#3b82f6",
              stats := defaultStats, last_seen := none })],
        tasks := [], processes := [], color_index := 1 }
      "192.168.1.42:5555" "" "wifi" =
      Except.ok
        ({ devices :=
             [("192.168.1.42:5555",
               { id := "192.168.1.42:5555", ip := "192.168.1.42", port := 5555,
                 name := "Device (192.168.1.42)", nickname := "", status := "offline",
                 connection_type := "wifi", color := "#3b82f6",
                 stats := defaultStats, last_seen := none })],
           tasks := [], processes := [], color_index := 1 },
         { id := "192.168.1.42:5555", ip := "192.168.1.42", port := 5555,
           name := "Device (192.168.1.42)", nickname := "", status := "offline",
           connection_type := "wifi", color := "#3b82f6",
           stats := defaultStats, last_seen := none },
         []) ∧
    (1 : Nat) = 0 + 1 ∧
    "#3b82f6" = DEVICE_COLORS.getD (0 % DEVICE_COLORS.length) "" := by
  have h := c4_add_device_idempotent dmInit "192.168.1.42:5555" "" "wifi" "" "wifi"
    { devices :=
        [("192.168.1.42:5555",
          { id := "192.168.1.42:5555", ip := "192.168.1.42", port := 5555,
            name := "Device (192.168.1.42)", nickname := "", status := "offline",
            connection_type := "wifi", color := "#3b82f6",
            stats := defaultStats, last_seen := none })],
      tasks := [], processes := [], color_index := 1 }
    { id := "192.168.1.42:5555", ip := "192.168.1.42", port := 5555,
      name := "Device (192.168.1.42)", nickname := "", status := "offline",
      connection_type := "wifi", color := "#3b82f6",
      stats := defaultStats, last_seen := none }
    [MEvent.device_added
      { id := "192.168.1.42:5555", ip := "192.168.1.42", port := 5555,
        name := "Device (192.168.1.42)", nickname := "", status := "offline",
        connection_type := "wifi", color := "#3b82f6",
        stats := defaultStats, last_seen := none }]
    rfl
  exact ⟨h.1, (h.2.1 rfl).1, (h.2.1 rfl).2⟩

/-- A structurally matching line is nonempty after stripping, because
the pattern cannot match the empty string. -/
theorem log_match_ne_empty (line : String) (x : List (List Char) × Nat)
    (h : reMatchGroups LOG_PATTERN (pyStrip line).data = some x) :
    pyStrip line ≠ "" := by
  intro h0
  rw [h0] at h
  exact Option.noConfusion
    (show (none : Option (List (List Char) × Nat)) = some x from h)

/-- Example line whose bracket label is duration-like under the spec's
pattern but not under the code's. -/
def exLine2 : String := "01-15 10:23:45.123  1234  5678 I Unity   : [12 34m] elapsed"

/-- C2 counterexample: the message's bracket label "12 34m" matches the
spec's duration pattern `\d+h?\s+\d+m`, so the claim requires the raw
tag "Unity" to be kept; the code's pattern is `\d+hs?\s+\d+m` (the `h`
is mandatory), which does not match, so the tag is replaced by the
label. -/
theorem c2_counterexample :
    (reMatch DURATION_PATTERN_SPEC ("12 34m").data 0).isSome = true ∧
    (reMatch DURATION_PATTERN ("12 34m").data 0).isSome = false ∧
    Option.map LogRecord.tag (parse_log_line exLine2) = some "12 34m" ∧
    "12 34m" ≠ "Unity" := by
  refine ⟨rfl, rfl, rfl, ?_⟩
  decide

/-- C2 amended: for every structurally valid line, the parsed tag is
the first bracketed label of the message body exactly when that label
does not prefix-match the code's duration pattern `\d+hs?\s+\d+m`;
otherwise (label duration-like, or no bracketed token) the raw tag
is kept. -/
theorem c2_tag_rule_amended (line : String) (gs : List (List Char)) (e : Nat)
    (h : reMatchGroups LOG_PATTERN (pyStrip line).data = some (gs, e)) :
    Option.map LogRecord.tag (parse_log_line line) =
      some (match reSearch UNITY_TAG_PATTERN (gs.getD 5 []) with
            | some sgs =>
              if (reMatch DURATION_PATTERN (sgs.getD 0 []) 0).isSome then
                String.mk (gs.getD 4 [])
              else String.mk (sgs.getD 0 [])
            | none => String.mk (gs.getD 4 [])) := by
  have hne := log_match_ne_empty line (gs, e) h
  simp only [parse_log_line]
  rw [if_neg hne, h]
  show some ((extract_unity_tag (String.mk (gs.getD 5 []))).getD
        (String.mk (gs.getD 4 []))) = _
  unfold extract_unity_tag
  have hdata : (String.mk (gs.getD 5 [])).data = gs.getD 5 [] := rfl
  rw [hdata]
  rcases hs : reSearch UNITY_TAG_PATTERN (gs.getD 5 []) with _ | sgs
  · rfl
  · dsimp only
    by_cases hdur : (reMatch DURATION_PATTERN (sgs.getD 0 []) 0).isSome = true
    · rw [if_pos hdur, if_pos hdur]
      rfl
    · rw [if_neg hdur, if_neg hdur]
      rfl

/-- C2 witness: a line with the non-duration bracket label "Boot" has
its tag replaced by the label. -/
theorem c2_tag_rule_amended_witness :
    Option.map LogRecord.tag
      (parse_log_line "01-15 10:23:45.123  1 2 I Unity : [Boot] ok") =
      some "Boot" := by
  have h := c2_tag_rule_amended "01-15 10:23:45.123  1 2 I Unity : [Boot] ok"
    ["01-15 10:23:45.123".data, "1".data, "2".data, "I".data,
     "Unity".data, "[Boot] ok".data] 43 rfl
  exact h.trans rfl

/-- The full keyword list the category chain actually tests, in
priority order with each branch's synonyms. -/
def CATEGORY_KEYWORDS : List String :=
  ["quantum", "vivox", "connection", "network", "http",
   "analytics", "firebase", "camera", "follower", "player", "roy"]

/-- Example line whose message contains the synonym keyword "http" but
none of the six spec keywords. -/
def exLine3 : String := "01-15 10:23:45.123  1234  5678 I Unity   : http"

/-- C3 counterexample: the message "http" contains none of the six
keywords quantum, vivox, network, analytics, camera, player, so the
claim requires category None; but the code's network branch also
matches "connection" and "http", so the line is categorised
"network". -/
theorem c3_counterexample :
    Option.map LogRecord.category (parse_log_line exLine3) = some (some "network") ∧
    (["quantum", "vivox", "network", "analytics", "camera", "player"].all
       (fun k => !(pyContains (pyLower "http") k))) = true ∧
    (some "network" : Option String) ≠ none := by
  refine ⟨rfl, rfl, ?_⟩
  decide

/-- C3 amended: the category of a structurally valid line is computed
from the raw message body by a case-insensitive first-match chain whose
branches carry synonyms: quantum; vivox; connection or network or http
(category "network"); analytics or firebase (category "analytics");
camera or follower (category "camera"); player or roy (category
"player"); and the category is None exactly when the lowered message
contains none of those eleven keywords. -/
theorem c3_category_amended :
    (∀ (line : String) (gs : List (List Char)) (e : Nat),
       reMatchGroups LOG_PATTERN (pyStrip line).data = some (gs, e) →
       Option.map LogRecord.category (parse_log_line line) =
         some (detect_category (String.mk (gs.getD 5 [])))) ∧
    (∀ msg : String,
       (detect_category msg = none ↔
          CATEGORY_KEYWORDS.all (fun k => !(pyContains (pyLower msg) k)) = true) ∧
       (pyContains (pyLower msg) "quantum" = true →
          detect_category msg = some "quantum") ∧
       (pyContains (pyLower msg) "quantum" = false →
          pyContains (pyLower msg) "vivox" = true →
          detect_category msg = some "vivox") ∧
       (pyContains (pyLower msg) "quantum" = false →
          pyContains (pyLower msg) "vivox" = false →
          (pyContains (pyLower msg) "connection" || pyContains (pyLower msg) "network" ||
             pyContains (pyLower msg) "http") = true →
          detect_category msg = some "network") ∧
       (pyContains (pyLower msg) "quantum" = false →
          pyContains (pyLower msg) "vivox" = false →
          (pyContains (pyLower msg) "connection" || pyContains (pyLower msg) "network" ||
             pyContains (pyLower msg) "http") = false →
          (pyContains (pyLower msg) "analytics" || pyContains (pyLower msg) "firebase") = true →
          detect_category msg = some "analytics") ∧
       (pyContains (pyLower msg) "quantum" = false →
          pyContains (pyLower msg) "vivox" = false →
          (pyContains (pyLower msg) "connection" || pyContains (pyLower msg) "network" ||
             pyContains (pyLower msg) "http") = false →
          (pyContains (pyLower msg) "analytics" || pyContains (pyLower msg) "firebase") = false →
          (pyContains (pyLower msg) "camera" || pyContains (pyLower msg) "follower") = true →
          detect_category msg = some "camera") ∧
       (pyContains (pyLower msg) "quantum" = false →
          pyContains (pyLower msg) "vivox" = false →
          (pyContains (pyLower msg) "connection" || pyContains (pyLower msg) "network" ||
             pyContains (pyLower msg) "http") = false →
          (pyContains (pyLower msg) "analytics" || pyContains (pyLower msg) "firebase") = false →
          (pyContains (pyLower msg) "camera" || pyContains (pyLower msg) "follower") = false →
          (pyContains (pyLower msg) "player" || pyContains (pyLower msg) "roy") = true →
          detect_category msg = some "player")) := by
  constructor
  · intro line gs e h
    have hne := log_match_ne_empty line (gs, e) h
    simp only [parse_log_line]
    rw [if_neg hne, h]
    rfl
  · intro msg
    refine ⟨?_, ?_, ?_, ?_, ?_, ?_, ?_⟩
    · constructor
      · intro hnone
        simp only [detect_category] at hnone
        split_ifs at hnone with h1 h2 h3 h4 h5 h6
        simp only [Bool.or_eq_true, not_or, Bool.not_eq_true] at h1 h2 h3 h4 h5 h6
        obtain ⟨⟨h3a, h3b⟩, h3c⟩ := h3
        obtain ⟨h4a, h4b⟩ := h4
        obtain ⟨h5a, h5b⟩ := h5
        obtain ⟨h6a, h6b⟩ := h6
        simp [CATEGORY_KEYWORDS, h1, h2, h3a, h3b, h3c, h4a, h4b, h5a, h5b, h6a, h6b]
      · intro hall
        simp only [CATEGORY_KEYWORDS, List.all_cons, List.all_nil, Bool.and_eq_true,
          Bool.not_eq_true', Bool.and_true] at hall
        obtain ⟨k1, k2, k3, k4, k5, k6, k7, k8, k9, k10, k11⟩ := hall
        simp [detect_category, k1, k2, k3, k4, k5, k6, k7, k8, k9, k10, k11]
    · intro h1
      simp [detect_category, h1]
    · intro h1 h2
      simp [detect_category, h1, h2]
    · intro h1 h2 h3
      simp [detect_category, h1, h2, h3]
    · intro h1 h2 h3 h4
      simp [detect_category, h1, h2, h3, h4]
    · intro h1 h2 h3 h4 h5
      simp [detect_category, h1, h2, h3, h4, h5]
    · intro h1 h2 h3 h4 h5 h6
      simp [detect_category, h1, h2, h3, h4, h5, h6]

/-- C3 witness: a vivox line is categorised through the parser, the
characterisation fires on a concrete message, and a keyword-free
message gets no category. -/
theorem c3_category_amended_witness :
    Option.map LogRecord.category
      (parse_log_line "01-15 10:23:45.123  1 2 I Unity : Vivox login") =
      some (some "vivox") ∧
    detect_category "Starting Vivox session" = some "vivox" ∧
    detect_category "all quiet" = none := by
  refine ⟨?_, ?_, ?_⟩
  · have h := c3_category_amended.1 "01-15 10:23:45.123  1 2 I Unity : Vivox login"
      ["01-15 10:23:45.123".data, "1".data, "2".data, "I".data,
       "Unity".data, "Vivox login".data] 45 rfl
    exact h.trans rfl
  · exact (c3_category_amended.2 "Starting Vivox session").2.2.1 rfl rfl
  · exact (c3_category_amended.2 "all quiet").1.mpr rfl

/-- An iteration continues the loop exactly when it is not cancelled. -/
theorem runIter_continue (dev : DeviceInfo) (now : String) (inp : IterInput) :
    (runIter dev now inp).2.2 = !(inp.ending == IterEnd.cancelled) := by
  obtain ⟨lines, ending⟩ := inp
  cases ending <;> rfl

/-- A sample online device for the loop examples. -/
def exDev : DeviceInfo :=
  { id := "10.0.0.5:5555", ip := "10.0.0.5", port := 5555, name := "Quest 3",
    nickname := "", status := "online", connection_type := "wifi",
    color := "#3b82f6", stats := defaultStats, last_seen := none }

/-- C6 counterexample: an iteration that ends in an I/O error (an
exception in the `try` body) transitions the device to status
"offline", not "connecting" as the claim states; only stream
end-of-input produces "connecting". -/
theorem c6_counterexample :
    (runIter exDev "t0" { lines := [], ending := IterEnd.exn }).1.status = "offline" ∧
    (runIter exDev "t0" { lines := [], ending := IterEnd.exn }).2.1 =
      [TraceEv.openStream, TraceEv.statusUpdate "offline", TraceEv.sleep 2] ∧
    "offline" ≠ "connecting" := by
  refine ⟨rfl, rfl, ?_⟩
  decide

/-- C6 amended: on stream end-of-input the device transitions to
"connecting", the loop sleeps the fixed 2-second backoff and
continues; on an I/O error it transitions to "offline", also sleeps 2
seconds and continues; a non-cancelled iteration always proceeds to
the rest of the schedule (retrying the stream open); and the loop
terminates exactly when some scheduled iteration is cancelled by
`disconnect`, so it never gives up on its own. -/
theorem c6_reconnect_loop_amended (dev : DeviceInfo) (now : String)
    (inp : IterInput) (sched : List IterInput) :
    (inp.ending = IterEnd.eof →
       (runIter dev now inp).1.status = "connecting" ∧
       (runIter dev now inp).2.2 = true ∧
       ∃ body, (runIter dev now inp).2.1 =
         TraceEv.openStream :: body ++
           [TraceEv.statusUpdate "connecting", TraceEv.sleep 2]) ∧
    (inp.ending = IterEnd.exn →
       (runIter dev now inp).1.status = "offline" ∧
       (runIter dev now inp).2.2 = true ∧
       ∃ body, (runIter dev now inp).2.1 =
         TraceEv.openStream :: body ++
           [TraceEv.statusUpdate "offline", TraceEv.sleep 2]) ∧
    (inp.ending ≠ IterEnd.cancelled →
       run_logcat dev now (inp :: sched) =
         ((run_logcat (runIter dev now inp).1 now sched).1,
          (runIter dev now inp).2.1 ++
            (run_logcat (runIter dev now inp).1 now sched).2.1,
          (run_logcat (runIter dev now inp).1 now sched).2.2)) ∧
    ((run_logcat dev now sched).2.2 =
       sched.any (fun i => i.ending == IterEnd.cancelled)) := by
  refine ⟨?_, ?_, ?_, ?_⟩
  · obtain ⟨lines, ending⟩ := inp
    intro h
    cases h
    exact ⟨rfl, rfl, ⟨_, rfl⟩⟩
  · obtain ⟨lines, ending⟩ := inp
    intro h
    cases h
    exact ⟨rfl, rfl, ⟨_, rfl⟩⟩
  · intro h
    have h22 : (runIter dev now inp).2.2 = true := by
      rw [runIter_continue]
      obtain ⟨lines, ending⟩ := inp
      cases ending
      · rfl
      · rfl
      · exact absurd rfl h
    have hc : run_logcat dev now (inp :: sched) =
        if (runIter dev now inp).2.2 = true then
          ((run_logcat (runIter dev now inp).1 now sched).1,
           (runIter dev now inp).2.1 ++
             (run_logcat (runIter dev now inp).1 now sched).2.1,
           (run_logcat (runIter dev now inp).1 now sched).2.2)
        else ((runIter dev now inp).1, (runIter dev now inp).2.1, true) := rfl
    rw [hc, if_pos h22]
  · induction sched generalizing dev with
    | nil => rfl
    | cons i rest ih =>
      unfold run_logcat
      rw [runIter_continue]
      cases he : (i.ending == IterEnd.cancelled) with
      | false => simp [List.any_cons, he, ih]
      | true => simp [List.any_cons, he]

/-- C6 witness: a concrete end-of-input iteration goes to
"connecting" with the 2-second backoff, and a concrete schedule whose
second iteration is cancelled terminates the loop. -/
theorem c6_reconnect_loop_amended_witness :
    (runIter exDev "t0" { lines := [exLine1], ending := IterEnd.eof }).1.status =
      "connecting" ∧
    (run_logcat exDev "t0"
       [{ lines := [], ending := IterEnd.eof },
        { lines := [], ending := IterEnd.cancelled }]).2.2 =
      ([{ lines := [], ending := IterEnd.eof },
        { lines := [], ending := IterEnd.cancelled }] : List IterInput).any
        (fun i => i.ending == IterEnd.cancelled) :=
  ⟨((c6_reconnect_loop_amended exDev "t0"
      { lines := [exLine1], ending := IterEnd.eof } []).1 rfl).1,
   (c6_reconnect_loop_amended exDev "t0"
      { lines := [exLine1], ending := IterEnd.eof }
      [{ lines := [], ending := IterEnd.eof },
       { lines := [], ending := IterEnd.cancelled }]).2.2.2⟩

end Logcat
